import Mathlib

/-!
Verification of the effort-based decision task engine (gui.py, utils.py).

Modelling conventions: Python float arithmetic is modelled exactly over ℚ
(the literal 0.8 is 4/5, 7.0 is 7, 21.0 is 21); Python `int(x)` applied to a
non-negative value is `Int.toNat ⌊x⌋`; Python `round(x, 3)` is rounding
half-to-even at three decimal places; Python dicts used as per-key boolean
maps are association lists read through `List.lookup` with a `false` default,
written with the most recent assignment first.
-/

namespace EffortTask

/-- Rounding half-to-even of a rational to an integer, as Python `round` does. -/
def roundHalfEven (x : ℚ) : ℤ :=
  let f := ⌊x⌋
  if x - f < 1/2 then f
  else if 1/2 < x - f then f + 1
  else if f % 2 = 0 then f else f + 1

/-- Python `round(x, 3)`: rounding half-to-even at three decimal places. -/
def round3 (x : ℚ) : ℚ := (roundHalfEven (x * 1000) : ℚ) / 1000

/-- One emitted trial record, mirroring the row list built in
`PracticeTrialsFrame.run_task` (gui.py lines 521-537); fields are named after
the CSV header columns of utils.py. -/
structure TrialRow where
  date : String
  time : String
  subject : String
  handedness : String
  trial_num : Nat
  domain : String
  valence : String
  magnitude_hard : ℚ
  probability : ℚ
  ev : ℚ
  choice : String
  choice_rt : ℚ
  n_clicks_required : Nat
  n_clicks_executed : Nat
  task_complete : Nat
deriving Repr, DecidableEq

/-- Session-wide mutable state of `ExperimentApp.__init__` (gui.py lines
36-46), restricted to the fields the claims are about; default values are the
ones assigned there (`None` for the subject and handedness strings is the
empty string). -/
structure Controller where
  subject : String := ""
  handedness : String := ""
  domain : String := "Money"
  valence : String := "Loss"
  chose_practice_trials : Bool := false
  calibration_presses_right : Nat := 0
  calibration_presses_left : Nat := 0
  hard_clicks_required : Nat := 0
  data : List TrialRow := []
deriving Repr, DecidableEq

/-- Expiry branch of `CalibrationFrame._run_timer` (gui.py lines 316-358):
when the window for `step` ends with `count` presses, step 1 stores the right
count, any later step stores the left count and derives
`hard_clicks_required = int((right + left) * 0.8)`. -/
def finish_calibration_step (c : Controller) (step : Nat) (count : Nat) : Controller :=
  if step = 1 then
    { c with calibration_presses_right := count }
  else
    { c with calibration_presses_left := count
           , hard_clicks_required :=
               (⌊((c.calibration_presses_right + count : Nat) : ℚ) * (4/5)⌋).toNat }

/-- Tick loop of `PracticeTrialsFrame.run_task` (gui.py lines 517-551): each
pending 50 ms tick carries the clock reading `now` and the click count
accumulated by the key handler up to that tick; the loop ends at the first
tick with `now >= task_end or clicks >= clicks_req`, emitting the click count
together with the completion flag `int(clicks >= clicks_req)`; ticks before
that only update the progress display. `none` means no delivered tick
satisfied the termination test. -/
def run_task (task_end : ℚ) (clicks_req : Nat) : List (ℚ × Nat) → Option (Nat × Nat)
  | [] => none
  | (now, clicks) :: rest =>
    if task_end ≤ now ∨ clicks_req ≤ clicks then
      some (clicks, if clicks_req ≤ clicks then 1 else 0)
    else run_task task_end clicks_req rest

/-- Debounce state of one counting window: the key-down mark
(`self.key_pressed` of `CalibrationFrame`), the running count
(`self.count`), and the time of the last accepted count (used only by the
release-debounce policy). -/
structure CounterState where
  key_down : Bool := false
  count : Nat := 0
  last_accepted : Option ℚ := none
deriving Repr, DecidableEq

/-- Target-key press handling of `CalibrationFrame.on_key_press` (gui.py
lines 400-410): the press counts only when the key is not already marked
down; a counted press marks the key down. -/
def count_on_press (s : CounterState) : CounterState :=
  if s.key_down then s
  else { s with key_down := true, count := s.count + 1 }

/-- Target-key release handling of `CalibrationFrame.on_key_release` (gui.py
lines 412-418): clears the key-down mark and never touches the count. -/
def release_mark (s : CounterState) : CounterState :=
  { s with key_down := false }

/-- Modelled from the spec: the count-on-key-up variant (b) of the
TimedInputCounter counting policy (spec section 4.1), which appears in other
revisions of this repository but not under src — a release is counted only
when at least `minInterval` seconds have elapsed since the last accepted
count; the first release is always accepted. -/
def count_on_release (minInterval : ℚ) (t : ℚ) (s : CounterState) : CounterState :=
  match s.last_accepted with
  | none => { s with key_down := false, count := s.count + 1, last_accepted := some t }
  | some t0 =>
    if minInterval ≤ t - t0 then
      { s with key_down := false, count := s.count + 1, last_accepted := some t }
    else
      { s with key_down := false }

/-- The two counting-policy variants of the TimedInputCounter: variant (a)
counts on key-down with the already-down guard; variant (b) counts on key-up
under a minimum inter-count interval. -/
inductive CountPolicy where
  | onPress
  | onRelease (minInterval : ℚ)
deriving Repr, DecidableEq

/-- Event dispatch of the counting window: events whose key does not match
the target filter are ignored; matching events are handled by the configured
policy variant. -/
def on_event (policy : CountPolicy) (target key : String) (is_press : Bool)
    (t : ℚ) (s : CounterState) : CounterState :=
  if key = target then
    match policy, is_press with
    | .onPress, true => count_on_press s
    | .onPress, false => release_mark s
    | .onRelease _, true => { s with key_down := true }
    | .onRelease m, false => count_on_release m t s
  else s

/-- Python `str.strip()`: remove leading and trailing whitespace from a
string, written by structural recursion on the character list so that it
evaluates by kernel reduction. -/
def py_strip (s : String) : String :=
  ⟨((s.data.dropWhile Char.isWhitespace).reverse.dropWhile Char.isWhitespace).reverse⟩

/-- Raw contents of the five intake entry widgets of `InfoEntryFrame`. -/
structure IntakeForm where
  subject : String
  domain : String
  valence : String
  handedness : String
  practice : String
deriving Repr, DecidableEq

/-- Result of one intake submission: the controller state afterwards,
whether the phase advanced to Instructions, and the warning payload logged on
failure (the five stripped field values, in widget order). -/
structure IntakeResult where
  controller : Controller
  advanced : Bool
  warning : Option (List String)
deriving Repr, DecidableEq

/-- Intake submission `InfoEntryFrame.on_next` (gui.py lines 125-155): each
field is stripped; if every field is non-empty the controller is populated
(domain decoded as Food only for the code "F", otherwise Money; valence as
Gain only for "G", otherwise Loss; practice flag true exactly for "Y") and
the app advances to the Instructions frame; otherwise nothing changes and a
warning carrying the five stripped values is logged. -/
def on_next (c : Controller) (f : IntakeForm) : IntakeResult :=
  let subj := py_strip f.subject
  let domain := py_strip f.domain
  let valence := py_strip f.valence
  let hand := py_strip f.handedness
  let practice := py_strip f.practice
  if subj ≠ "" ∧ domain ≠ "" ∧ valence ≠ "" ∧ hand ≠ "" ∧ practice ≠ "" then
    { controller :=
        { c with subject := subj
               , domain := if domain = "F" then "Food" else "Money"
               , valence := if valence = "G" then "Gain" else "Loss"
               , handedness := hand
               , chose_practice_trials := practice = "Y" }
    , advanced := true
    , warning := none }
  else
    { controller := c
    , advanced := false
    , warning := some [subj, domain, valence, hand, practice] }

/-- Names of the intake fields, in the order their values appear in the
failure warning. -/
def intake_field_names : List String :=
  ["subject", "domain", "valence", "handedness", "practice"]

/-- Field names whose reported value is empty, recovered from a warning
payload. -/
def missing_fields (vals : List String) : List String :=
  (intake_field_names.zip vals).filterMap fun p =>
    if p.2 = "" then some p.1 else none

/-- One entry of the externally configured `PRACTICE_TRIALS` list: the hard
magnitude and the probability of loss. -/
structure TrialSpec where
  magnitude_hard : ℚ
  prob : ℚ
deriving Repr, DecidableEq

/-- Per-trial subject behaviour feeding one trial: the wall-clock date and
time strings at record creation, whether the Easy option was chosen (the
left key) or the Hard one (the right key), the measured choice response
time, and the click count accumulated when the task loop terminated. -/
structure TrialOutcome where
  date : String
  time : String
  choice_is_easy : Bool
  choice_rt : ℚ
  clicks : Nat
deriving Repr, DecidableEq

/-- Record assembly of `PracticeTrialsFrame` (choice handling at gui.py
lines 479-496 and the row construction of `run_task` at lines 520-537):
the click requirement is `EASY_CLICKS_REQUIRED` for Easy and the
controller's `hard_clicks_required` for Hard; the EV column is
`round(magnitude_hard * prob, 3)`, the response time is rounded to three
decimals, and the completion flag is `int(clicks >= clicks_req)`. -/
def mk_trial_row (c : Controller) (easy_req : Nat) (idx : Nat)
    (spec : TrialSpec) (o : TrialOutcome) : TrialRow :=
  let req := if o.choice_is_easy then easy_req else c.hard_clicks_required
  { date := o.date
  , time := o.time
  , subject := c.subject
  , handedness := c.handedness
  , trial_num := idx + 1
  , domain := c.domain
  , valence := c.valence
  , magnitude_hard := spec.magnitude_hard
  , probability := spec.prob
  , ev := round3 (spec.magnitude_hard * spec.prob)
  , choice := if o.choice_is_easy then "Easy" else "Hard"
  , choice_rt := round3 o.choice_rt
  , n_clicks_required := req
  , n_clicks_executed := o.clicks
  , task_complete := if req ≤ o.clicks then 1 else 0 }

/-- The exact CSV header list of `utils.save_data` (utils.py lines 29-33). -/
def csv_header : List String :=
  ["date", "time", "subject", "handedness", "trial_num", "domain", "valence",
   "magnitude_hard", "probability", "EV", "choice", "choice_rt",
   "n_clicks_required", "n_clicks_executed", "task_complete"]

/-- One invocation of the persistence collaborator: the target file name,
the rendered header line, and the data rows written after it in order. -/
structure SaveCall where
  fname : String
  header : String
  rows : List TrialRow
deriving Repr, DecidableEq

/-- Persistence `utils.save_data` (utils.py lines 24-39): writes to the file
named from subject, domain and valence the header line followed by one row
per record, in order. -/
def save_data (subject domain valence : String) (data : List TrialRow) : SaveCall :=
  { fname := subject ++ "_" ++ domain ++ "_" ++ valence ++ ".csv"
  , header := String.intercalate "," csv_header
  , rows := data }

/-- Observable events of the trial block: a trial record being appended to
the controller's data, or the persistence collaborator being invoked. -/
inductive SessionEvent where
  | record (r : TrialRow)
  | save (call : SaveCall)
deriving Repr, DecidableEq

/-- The trial-block loop of `PracticeTrialsFrame` (`load_trial` /
`run_task` / `next_trial`, gui.py lines 450-556): while specs remain, the
current trial produces one record, appended to the controller's data, and
the loop moves to the next spec with the 1-based trial number advanced; when
the specs are exhausted, `load_trial` hands the accumulated data to
`save_data` exactly once. -/
def run_session (c : Controller) (easy_req idx : Nat) :
    List (TrialSpec × TrialOutcome) → List SessionEvent
  | [] => [.save (save_data c.subject c.domain c.valence c.data)]
  | (spec, o) :: rest =>
    let row := mk_trial_row c easy_req idx spec o
    .record row :: run_session { c with data := c.data ++ [row] } easy_req (idx + 1) rest

/-- The rows a session run appends, in emission order. -/
def session_rows (c : Controller) (easy_req idx : Nat) :
    List (TrialSpec × TrialOutcome) → List TrialRow
  | [] => []
  | (spec, o) :: rest =>
    let row := mk_trial_row c easy_req idx spec o
    row :: session_rows { c with data := c.data ++ [row] } easy_req (idx + 1) rest

/-- The records carried by a list of session events, in order. -/
def records_of : List SessionEvent → List TrialRow
  | [] => []
  | .record r :: es => r :: records_of es
  | .save _ :: es => records_of es

/-- The persistence invocations in a list of session events, in order. -/
def save_calls : List SessionEvent → List SaveCall
  | [] => []
  | .record _ :: es => save_calls es
  | .save s :: es => s :: save_calls es

/-- The per-trial stage of `PracticeTrialsFrame`: `self.stage` is "choice"
while the choice prompt is up and "task" from the moment a choice is
accepted; the code keeps it at "task" through the inter-trial interval. -/
inductive Stage where
  | choice
  | task
deriving Repr, DecidableEq

/-- Python `dict.get(key, False)` on the per-key pressed map, with
assignments modelled as cons (most recent first). -/
def key_is_pressed (m : List (String × Bool)) (k : String) : Bool :=
  (m.lookup k).getD false

/-- Mutable state of `PracticeTrialsFrame` (gui.py lines 420-556),
restricted to what the handlers read and write; `data` is the controller's
collected row list and `hard_req` below stands for the controller's
`hard_clicks_required`. -/
structure PTState where
  trial_index : Nat := 0
  stage : Stage := .choice
  current_magnitude : ℚ := 0
  current_prob : ℚ := 0
  choice_time : ℚ := 0
  clicks : Nat := 0
  key_pressed : List (String × Bool) := []
  choice : String := ""
  choice_rt : ℚ := 0
  clicks_req : Nat := 0
  duration : ℚ := 0
  task_start : ℚ := 0
  task_end : ℚ := 0
  data : List TrialRow := []
deriving Repr, DecidableEq

/-- Key-press handler `PracticeTrialsFrame.on_key_press` (gui.py lines
469-509), with `key` the lower-cased keysym and `now` the clock reading: in
the choice stage an unpressed Left/Right key accepts the choice (Easy for
Left with the easy click requirement and 7 s duration, Hard for Right with
the calibrated requirement and 21 s), records the response time, zeroes the
click count and clears the pressed map; in the task stage a valid unpressed
key (space for Easy, either arrow for Hard) is marked down and counted; any
other event does nothing. -/
def pt_on_key_press (easy_req hard_req : Nat) (now : ℚ) (key : String)
    (s : PTState) : PTState :=
  if s.stage = .choice ∧ (key = "left" ∨ key = "right")
      ∧ key_is_pressed s.key_pressed key = false then
    let dur : ℚ := if key = "left" then 7 else 21
    { s with stage := .task
           , task_start := now
           , task_end := now + dur
           , clicks := 0
           , choice := if key = "left" then "Easy" else "Hard"
           , choice_rt := now - s.choice_time
           , clicks_req := if key = "left" then easy_req else hard_req
           , duration := dur
           , key_pressed := [] }
  else if s.stage = .task then
    if ((if s.choice = "Easy" then key = "space" else key = "left" ∨ key = "right")
        ∧ key_is_pressed s.key_pressed key = false) then
      { s with key_pressed := (key, true) :: s.key_pressed
             , clicks := s.clicks + 1 }
    else s
  else s

/-- Key-release handler `PracticeTrialsFrame.on_key_release` (gui.py lines
511-515): marks the key as no longer pressed. -/
def pt_on_key_release (key : String) (s : PTState) : PTState :=
  { s with key_pressed := (key, false) :: s.key_pressed }

/-- A raw key event forwarded by the presentation layer: a press or a
release of a (lower-cased) keysym. -/
inductive KeyEvent where
  | press (key : String)
  | release (key : String)
deriving Repr, DecidableEq

/-- Dispatch of a key event to the bound handlers of `PracticeTrialsFrame`. -/
def pt_handle (easy_req hard_req : Nat) (now : ℚ) (e : KeyEvent)
    (s : PTState) : PTState :=
  match e with
  | .press k => pt_on_key_press easy_req hard_req now k s
  | .release k => pt_on_key_release k s

/-- End of the inter-trial interval, `PracticeTrialsFrame.next_trial`
(gui.py lines 553-556): advances the trial index and resets the pressed-key
map. -/
def next_trial (s : PTState) : PTState :=
  { s with trial_index := s.trial_index + 1, key_pressed := [] }

/-- Prompt loading `PracticeTrialsFrame.load_trial` (gui.py lines 450-467)
in its continuing branch: while a spec remains at the current index it
becomes the current trial, the stage returns to choice and the prompt time
is recorded; when the specs are exhausted the frame state is left as is and
the accumulated data goes to the persistence collaborator (modelled by
`run_session`). -/
def load_trial (specs : List TrialSpec) (now : ℚ) (s : PTState) : PTState :=
  match specs[s.trial_index]? with
  | none => s
  | some spec =>
    { s with current_magnitude := spec.magnitude_hard
           , current_prob := spec.prob
           , stage := .choice
           , choice_time := now }

/-- Phases of the calibration frame around the side switch: the right
window running, the result screen waiting for the operator (the continue
button added at gui.py lines 339-345, with the timer loop stopped and keys
unbound), the left countdown, the left window, and completion. -/
inductive CalPhase where
  | runningRight
  | awaitContinue
  | countdownLeft
  | runningLeft
  | complete
deriving Repr, DecidableEq

/-- Events driving the calibration frame: a running timer or countdown
expiring, the operator clicking the continue button
(`prepare_for_left_test`), and raw key events. -/
inductive CalEvent where
  | timerExpire
  | operatorContinue
  | key (keysym : String) (is_press : Bool)
deriving Repr, DecidableEq

/-- Phase transitions of `CalibrationFrame` (gui.py lines 274-398): the
right window's expiry shows the result screen and schedules nothing
(`_run_timer` step-1 branch); from the result screen only the continue
button starts the left countdown (`prepare_for_left_test`); the left
countdown's expiry starts the left window and the left window's expiry
completes calibration; every other event leaves the phase unchanged. -/
def cal_phase_step (p : CalPhase) (e : CalEvent) : CalPhase :=
  match p, e with
  | .runningRight, .timerExpire => .awaitContinue
  | .awaitContinue, .operatorContinue => .countdownLeft
  | .countdownLeft, .timerExpire => .runningLeft
  | .runningLeft, .timerExpire => .complete
  | p, _ => p

/-- C1: running the right calibration window to completion with count `r` and
then the left window with count `l` stores both counts and derives
`hard_clicks_required = floor((r + l) * 0.8)`; the right-window step leaves
`hard_clicks_required` untouched, so the value is set exactly once, after
both counts are set; in particular r=10, l=5 yields 12 and r=0, l=0 yields 0. -/
theorem C1_required_hard_clicks (c : Controller) (r l : Nat) :
    (finish_calibration_step (finish_calibration_step c 1 r) 2 l).hard_clicks_required
      = (⌊((r + l : Nat) : ℚ) * (4/5)⌋).toNat
    ∧ (finish_calibration_step c 1 r).hard_clicks_required = c.hard_clicks_required
    ∧ (finish_calibration_step (finish_calibration_step c 1 r) 2 l).calibration_presses_right = r
    ∧ (finish_calibration_step (finish_calibration_step c 1 r) 2 l).calibration_presses_left = l
    ∧ (finish_calibration_step (finish_calibration_step c 1 10) 2 5).hard_clicks_required = 12
    ∧ (finish_calibration_step (finish_calibration_step c 1 0) 2 0).hard_clicks_required = 0 := by
  refine ⟨by simp [finish_calibration_step], by simp [finish_calibration_step],
    by simp [finish_calibration_step], by simp [finish_calibration_step], ?_, ?_⟩
  · simp [finish_calibration_step]
    norm_num
    rfl
  · simp [finish_calibration_step]

/-- C2: the task loop terminates at the first delivered tick at which the
deadline has passed or the click requirement is met (whichever condition
occurs first wins), and the emitted completion flag is 1 exactly when the
emitted click count has reached the requirement; concretely, with
requirement 5 and deadline 21 the count condition reached at t=3 ends the
task there with flag 1, and a run where the count never reaches 5 ends at
the deadline tick with flag 0. -/
theorem C2_task_termination (task_end : ℚ) (req : Nat) (L : List (ℚ × Nat)) :
    run_task task_end req L
      = (L.find? (fun tc => decide (task_end ≤ tc.1) || decide (req ≤ tc.2))).map
          (fun tc => (tc.2, if req ≤ tc.2 then 1 else 0))
    ∧ run_task 21 5 [(0, 0), (1, 2), (3, 5), (21, 5)] = some (5, 1)
    ∧ run_task 21 5 [(0, 0), (1, 2), (3, 4), (21, 4)] = some (4, 0) := by
  refine ⟨?_, by norm_num [run_task], by norm_num [run_task]⟩
  induction L with
  | nil => rfl
  | cons a L ih =>
    obtain ⟨now, clicks⟩ := a
    by_cases h : task_end ≤ now ∨ req ≤ clicks
    · rw [List.find?_cons_of_pos]
      · simp [run_task, h]
      · simpa using h
    · rw [List.find?_cons_of_neg]
      · simpa [run_task, h] using ih
      · simpa using h

theorem foldl_count_on_press_down (n : Nat) (s : CounterState) (h : s.key_down = true) :
    (List.replicate n ()).foldl (fun st _ => count_on_press st) s = s := by
  induction n with
  | zero => rfl
  | succ n ih =>
    rw [List.replicate_succ, List.foldl_cons,
      show count_on_press s = s from by simp [count_on_press, h]]
    exact ih

/-- C3: the counting engine supports both debounce variants as a
configuration choice: under the key-down policy a press of the target key is
counted exactly when the key is not already marked down (and marks it down),
while a press with the key already down changes nothing; under the key-up
policy with minimum interval 0.2 s, release events at t = 0.0, 0.1, 0.3
yield a count of 2 (the 0.1 s event is suppressed). -/
theorem C3_debounce_variants (target : String) (t : ℚ) (s : CounterState) :
    (s.key_down = false →
       (on_event .onPress target target true t s).count = s.count + 1
       ∧ (on_event .onPress target target true t s).key_down = true)
    ∧ (s.key_down = true → on_event .onPress target target true t s = s)
    ∧ ([(0 : ℚ), 1/10, 3/10].foldl
         (fun st u => on_event (.onRelease (1/5)) target target false u st)
         { key_down := false, count := 0, last_accepted := none }).count = 2 := by
  refine ⟨fun h => ?_, fun h => ?_, ?_⟩
  · simp [on_event, count_on_press, h]
  · simp [on_event, count_on_press, h]
  · norm_num [on_event, count_on_release]

/-- Witness for C3 at a concrete state: a press of the target key with the
key not yet down counts once, and the concrete release stream counts 2. -/
theorem C3_debounce_variants_witness :
    (on_event .onPress "left" "left" true 0
        { key_down := false, count := 0, last_accepted := none }).count = 0 + 1
    ∧ ([(0 : ℚ), 1/10, 3/10].foldl
         (fun st u => on_event (.onRelease (1/5)) "left" "left" false u st)
         { key_down := false, count := 0, last_accepted := none }).count = 2 :=
  ⟨((C3_debounce_variants "left" 0
      { key_down := false, count := 0, last_accepted := none }).1 rfl).1,
   (C3_debounce_variants "left" 0
      { key_down := false, count := 0, last_accepted := none }).2.2⟩

/-- C8: a key already physically down when a counting window starts is
never double-counted — the window starts with the key-down mark cleared
(`prepare_for_left_test`, gui.py line 394), and a stream of `n` key-repeat
press events of the held target key raises the count by `min n 1`, i.e. by at
most one; moreover a release is a no-op on the count, in particular releasing
a key that was never pressed within the window. -/
theorem C8_held_key_single_count (s : CounterState) (n : Nat) (h : s.key_down = false) :
    ((List.replicate n ()).foldl (fun st _ => count_on_press st) s).count
      = s.count + min n 1
    ∧ ∀ st : CounterState, (release_mark st).count = st.count := by
  constructor
  · cases n with
    | zero => simp
    | succ n =>
      rw [List.replicate_succ, List.foldl_cons,
        show count_on_press s = { s with key_down := true, count := s.count + 1 } from by
          simp [count_on_press, h],
        foldl_count_on_press_down n _ rfl]
      simp
  · intro st
    simp [release_mark]

/-- Witness for C8 at a concrete state: five repeat presses of a key held
across the window start count exactly once. -/
theorem C8_held_key_single_count_witness :
    ((List.replicate 5 ()).foldl (fun st _ => count_on_press st)
        { key_down := false, count := 0, last_accepted := none }).count = 0 + min 5 1 :=
  (C8_held_key_single_count
    { key_down := false, count := 0, last_accepted := none } 5 rfl).1

/-- C5: submitting intake with any stripped field empty takes no action —
the controller is returned unmodified, the phase does not advance, and the
logged warning payload identifies exactly the missing fields; submitting
with all fields non-empty populates the controller and advances to
Instructions. -/
theorem C5_intake_validation (c : Controller) (f : IntakeForm) :
    ((py_strip f.subject = "" ∨ py_strip f.domain = "" ∨ py_strip f.valence = ""
        ∨ py_strip f.handedness = "" ∨ py_strip f.practice = "") →
      (on_next c f).controller = c
      ∧ (on_next c f).advanced = false
      ∧ (on_next c f).warning
          = some [py_strip f.subject, py_strip f.domain, py_strip f.valence,
                  py_strip f.handedness, py_strip f.practice]
      ∧ ∀ name : String,
          name ∈ missing_fields [py_strip f.subject, py_strip f.domain, py_strip f.valence,
                                 py_strip f.handedness, py_strip f.practice]
          ↔ ((name = "subject" ∧ py_strip f.subject = "")
             ∨ (name = "domain" ∧ py_strip f.domain = "")
             ∨ (name = "valence" ∧ py_strip f.valence = "")
             ∨ (name = "handedness" ∧ py_strip f.handedness = "")
             ∨ (name = "practice" ∧ py_strip f.practice = "")))
    ∧ ((py_strip f.subject ≠ "" ∧ py_strip f.domain ≠ "" ∧ py_strip f.valence ≠ ""
        ∧ py_strip f.handedness ≠ "" ∧ py_strip f.practice ≠ "") →
      (on_next c f).advanced = true
      ∧ (on_next c f).warning = none
      ∧ (on_next c f).controller.subject = py_strip f.subject
      ∧ (on_next c f).controller.handedness = py_strip f.handedness
      ∧ (on_next c f).controller.domain
          = (if py_strip f.domain = "F" then "Food" else "Money")
      ∧ (on_next c f).controller.valence
          = (if py_strip f.valence = "G" then "Gain" else "Loss")
      ∧ (on_next c f).controller.chose_practice_trials
          = (py_strip f.practice = "Y")) := by
  constructor
  · intro h
    have hcond : ¬ (py_strip f.subject ≠ "" ∧ py_strip f.domain ≠ "" ∧ py_strip f.valence ≠ ""
        ∧ py_strip f.handedness ≠ "" ∧ py_strip f.practice ≠ "") := by tauto
    refine ⟨by simp [on_next, hcond], by simp [on_next, hcond],
      by simp [on_next, hcond], fun name => ?_⟩
    simp only [missing_fields, intake_field_names, List.zip, List.zipWith,
      List.filterMap]
    split_ifs <;> simp_all
  · intro h
    refine ⟨?_, ?_, ?_, ?_, ?_, ?_, ?_⟩ <;> simp [on_next, h]

/-- Witness for C5: an empty subject field blocks submission and is the one
reported missing field, while a fully filled form advances. -/
theorem C5_intake_validation_witness :
    ((on_next {} ⟨"", "F", "G", "Left", "Y"⟩).controller = {}
      ∧ (on_next {} ⟨"", "F", "G", "Left", "Y"⟩).advanced = false)
    ∧ (on_next {} ⟨"s01", "F", "G", "Left", "Y"⟩).advanced = true :=
  ⟨⟨((C5_intake_validation {} ⟨"", "F", "G", "Left", "Y"⟩).1 (Or.inl (by decide))).1,
    ((C5_intake_validation {} ⟨"", "F", "G", "Left", "Y"⟩).1 (Or.inl (by decide))).2.1⟩,
   ((C5_intake_validation {} ⟨"s01", "F", "G", "Left", "Y"⟩).2
     (by refine ⟨?_, ?_, ?_, ?_, ?_⟩ <;> decide)).1⟩

/-- C10: intake decoding of the domain and valence codes is non-exhaustive —
on a successful submission every domain code other than "F" is stored as
Money and only "F" as Food, every valence code other than "G" is stored as
Loss and only "G" as Gain, and no code is rejected (the phase still
advances). -/
theorem C10_domain_valence_decoding (c : Controller) (f : IntakeForm)
    (h : py_strip f.subject ≠ "" ∧ py_strip f.domain ≠ "" ∧ py_strip f.valence ≠ ""
        ∧ py_strip f.handedness ≠ "" ∧ py_strip f.practice ≠ "") :
    (py_strip f.domain ≠ "F" → (on_next c f).controller.domain = "Money")
    ∧ (py_strip f.domain = "F" → (on_next c f).controller.domain = "Food")
    ∧ (py_strip f.valence ≠ "G" → (on_next c f).controller.valence = "Loss")
    ∧ (py_strip f.valence = "G" → (on_next c f).controller.valence = "Gain")
    ∧ (on_next c f).advanced = true := by
  refine ⟨?_, ?_, ?_, ?_, ?_⟩
  · intro hd; simp [on_next, h, hd]
  · intro hd; simp [on_next, h, hd]
  · intro hv; simp [on_next, h, hv]
  · intro hv; simp [on_next, h, hv]
  · simp [on_next, h]

/-- Witness for C10: the unexpected codes "X" and "Z" are decoded as Money
and Loss, and the submission still advances. -/
theorem C10_domain_valence_decoding_witness :
    (on_next {} ⟨"s01", "X", "Z", "Left", "N"⟩).controller.domain = "Money"
    ∧ (on_next {} ⟨"s01", "X", "Z", "Left", "N"⟩).controller.valence = "Loss"
    ∧ (on_next {} ⟨"s01", "X", "Z", "Left", "N"⟩).advanced = true :=
  ⟨(C10_domain_valence_decoding {} ⟨"s01", "X", "Z", "Left", "N"⟩
      (by refine ⟨?_, ?_, ?_, ?_, ?_⟩ <;> decide)).1 (by decide),
   (C10_domain_valence_decoding {} ⟨"s01", "X", "Z", "Left", "N"⟩
      (by refine ⟨?_, ?_, ?_, ?_, ?_⟩ <;> decide)).2.2.1 (by decide),
   (C10_domain_valence_decoding {} ⟨"s01", "X", "Z", "Left", "N"⟩
      (by refine ⟨?_, ?_, ?_, ?_, ?_⟩ <;> decide)).2.2.2.2⟩

theorem run_session_eq (easy_req : Nat) (ts : List (TrialSpec × TrialOutcome)) :
    ∀ (c : Controller) (idx : Nat),
      run_session c easy_req idx ts
        = (session_rows c easy_req idx ts).map SessionEvent.record
          ++ [SessionEvent.save
                (save_data c.subject c.domain c.valence
                  (c.data ++ session_rows c easy_req idx ts))] := by
  induction ts with
  | nil => intro c idx; simp [run_session, session_rows]
  | cons t rest ih =>
    intro c idx
    obtain ⟨spec, o⟩ := t
    simp only [run_session, session_rows]
    rw [ih]
    simp [List.append_assoc]

theorem records_of_map_record (l : List TrialRow) (s : SaveCall) :
    records_of (l.map SessionEvent.record ++ [SessionEvent.save s]) = l := by
  induction l with
  | nil => rfl
  | cons r l ih => simp [records_of, ih]

theorem save_calls_map_record (l : List TrialRow) (s : SaveCall) :
    save_calls (l.map SessionEvent.record ++ [SessionEvent.save s]) = [s] := by
  induction l with
  | nil => rfl
  | cons r l ih => simp [save_calls, ih]

theorem session_rows_spec_fields (easy_req : Nat)
    (ts : List (TrialSpec × TrialOutcome)) :
    ∀ (c : Controller) (idx : Nat),
      (session_rows c easy_req idx ts).map (fun r => (r.magnitude_hard, r.probability))
        = ts.map (fun t => (t.1.magnitude_hard, t.1.prob)) := by
  induction ts with
  | nil => intro c idx; rfl
  | cons t rest ih =>
    intro c idx
    obtain ⟨spec, o⟩ := t
    simp [session_rows, mk_trial_row, ih]

theorem session_rows_trial_num (easy_req : Nat)
    (ts : List (TrialSpec × TrialOutcome)) :
    ∀ (c : Controller) (idx : Nat),
      (session_rows c easy_req idx ts).map TrialRow.trial_num
        = List.range' (idx + 1) ts.length := by
  induction ts with
  | nil => intro c idx; rfl
  | cons t rest ih =>
    intro c idx
    obtain ⟨spec, o⟩ := t
    simp only [session_rows, List.map_cons, List.length_cons,
      List.range'_succ (idx + 1) rest.length 1, mk_trial_row]
    rw [ih]

theorem session_rows_ev (easy_req : Nat) (ts : List (TrialSpec × TrialOutcome)) :
    ∀ (c : Controller) (idx : Nat),
      (session_rows c easy_req idx ts).map TrialRow.ev
        = ts.map (fun t => round3 (t.1.magnitude_hard * t.1.prob)) := by
  induction ts with
  | nil => intro c idx; rfl
  | cons t rest ih =>
    intro c idx
    obtain ⟨spec, o⟩ := t
    simp [session_rows, mk_trial_row, ih]

/-- C6: persistence is invoked exactly once per session run, after the last
trial completes (the save is the final event, following every record), and
the single invocation targets the file named subject_domain_valence.csv and
writes the exact fifteen-column header followed by one row per trial record
in order. -/
theorem C6_persistence_once (c : Controller) (easy_req : Nat)
    (trials : List (TrialSpec × TrialOutcome)) :
    save_calls (run_session c easy_req 0 trials)
      = [{ fname := c.subject ++ "_" ++ c.domain ++ "_" ++ c.valence ++ ".csv"
         , header := "date,time,subject,handedness,trial_num,domain,valence,magnitude_hard,probability,EV,choice,choice_rt,n_clicks_required,n_clicks_executed,task_complete"
         , rows := c.data ++ records_of (run_session c easy_req 0 trials) }]
    ∧ run_session c easy_req 0 trials
      = (records_of (run_session c easy_req 0 trials)).map SessionEvent.record
        ++ [SessionEvent.save (save_data c.subject c.domain c.valence
              (c.data ++ records_of (run_session c easy_req 0 trials)))] := by
  have he := run_session_eq easy_req trials c 0
  have hr : records_of (run_session c easy_req 0 trials)
      = session_rows c easy_req 0 trials := by
    rw [he, records_of_map_record]
  constructor
  · rw [he, save_calls_map_record, ← hr]
    have hh : String.intercalate "," csv_header
        = "date,time,subject,handedness,trial_num,domain,valence,magnitude_hard,probability,EV,choice,choice_rt,n_clicks_required,n_clicks_executed,task_complete" := rfl
    simp [save_data, hh, records_of_map_record]
  · rw [hr, he]

/-- C7: the trial block produces exactly one record per TrialSpec consumed,
in the order of the input sequence (the emitted magnitude/probability pairs
are the specs in order and the trial numbers are 1, 2, ..., n), and each
record's expected value is `round(magnitude_hard * prob, 3)`. -/
theorem C7_one_record_per_spec (c : Controller) (easy_req : Nat)
    (trials : List (TrialSpec × TrialOutcome)) :
    (records_of (run_session c easy_req 0 trials)).map
        (fun r => (r.magnitude_hard, r.probability))
      = trials.map (fun t => (t.1.magnitude_hard, t.1.prob))
    ∧ (records_of (run_session c easy_req 0 trials)).map TrialRow.trial_num
      = List.range' 1 trials.length
    ∧ (records_of (run_session c easy_req 0 trials)).map TrialRow.ev
      = trials.map (fun t => round3 (t.1.magnitude_hard * t.1.prob)) := by
  have hr : records_of (run_session c easy_req 0 trials)
      = session_rows c easy_req 0 trials := by
    rw [run_session_eq, records_of_map_record]
  rw [hr]
  exact ⟨session_rows_spec_fields easy_req trials c 0,
    session_rows_trial_num easy_req trials c 0,
    session_rows_ev easy_req trials c 0⟩

theorem after_choice_scratch (specs : List TrialSpec) (easy_req hard_req : Nat)
    (t1 t2 : ℚ) (k2 : String) (s : PTState) (ck : Nat)
    (kp : List (String × Bool))
    (hk2 : k2 = "left" ∨ k2 = "right")
    (hnext : s.trial_index + 1 < specs.length) :
    pt_on_key_press easy_req hard_req t2 k2
        (load_trial specs t1 (next_trial { s with clicks := ck, key_pressed := kp }))
      = pt_on_key_press easy_req hard_req t2 k2
          (load_trial specs t1 (next_trial s)) := by
  have hm : specs[s.trial_index + 1]? = some (specs[s.trial_index + 1]) :=
    List.getElem?_eq_getElem hnext
  rcases hk2 with hk2 | hk2 <;> subst hk2 <;>
    simp [next_trial, load_trial, hm, pt_on_key_press, key_is_pressed]

/-- C4: the inter-trial interval is a pure timed pause with respect to the
observable session state — the code leaves the stage at task and the key
handlers bound, so a key event delivered between a completed trial and the
next choice prompt may touch only the scratch click count and pressed-key
map, and both are overwritten before anything reads them: the collected
records are unchanged, and the state reached once the next trial is loaded
and its choice is accepted is identical with or without the event. -/
theorem C4_iti_ignores_input (specs : List TrialSpec) (easy_req hard_req : Nat)
    (t0 t1 t2 : ℚ) (e : KeyEvent) (k2 : String) (s : PTState)
    (hstage : s.stage = .task)
    (hnext : s.trial_index + 1 < specs.length)
    (hk2 : k2 = "left" ∨ k2 = "right") :
    (pt_handle easy_req hard_req t0 e s).data = s.data
    ∧ pt_on_key_press easy_req hard_req t2 k2
        (load_trial specs t1 (next_trial (pt_handle easy_req hard_req t0 e s)))
      = pt_on_key_press easy_req hard_req t2 k2
          (load_trial specs t1 (next_trial s)) := by
  cases e with
  | press k =>
    have hchoice : ¬ (s.stage = .choice ∧ (k = "left" ∨ k = "right")
        ∧ key_is_pressed s.key_pressed k = false) := by
      simp [hstage]
    by_cases hcount : ((if s.choice = "Easy" then k = "space"
        else k = "left" ∨ k = "right") ∧ key_is_pressed s.key_pressed k = false)
    · have hstep : pt_handle easy_req hard_req t0 (.press k) s
          = { s with key_pressed := (k, true) :: s.key_pressed
                   , clicks := s.clicks + 1 } := by
        simp [pt_handle, pt_on_key_press, hchoice, hstage, hcount]
      rw [hstep]
      exact ⟨rfl, after_choice_scratch specs easy_req hard_req t1 t2 k2 s
        (s.clicks + 1) ((k, true) :: s.key_pressed) hk2 hnext⟩
    · have hstep : pt_handle easy_req hard_req t0 (.press k) s = s := by
        simp [pt_handle, pt_on_key_press, hchoice, hstage, hcount]
      rw [hstep]
      exact ⟨rfl, rfl⟩
  | release k =>
    have hstep : pt_handle easy_req hard_req t0 (.release k) s
        = { s with clicks := s.clicks
                 , key_pressed := (k, false) :: s.key_pressed } := rfl
    rw [hstep]
    exact ⟨rfl, after_choice_scratch specs easy_req hard_req t1 t2 k2 s
      s.clicks ((k, false) :: s.key_pressed) hk2 hnext⟩

/-- Witness for C4 at a concrete state: a Right-arrow press arriving during
the inter-trial interval after trial 1 of a two-trial block leaves the
collected data and the post-choice state of trial 2 unchanged. -/
theorem C4_iti_ignores_input_witness :
    (pt_handle 4 12 (5 : ℚ) (.press "right")
        { stage := .task, choice := "Hard", clicks := 12 }).data
      = PTState.data { stage := .task, choice := "Hard", clicks := 12 }
    ∧ pt_on_key_press 4 12 (9 : ℚ) "left"
        (load_trial [⟨4, 1/2⟩, ⟨6, 1/4⟩] (8 : ℚ)
          (next_trial (pt_handle 4 12 (5 : ℚ) (.press "right")
            { stage := .task, choice := "Hard", clicks := 12 })))
      = pt_on_key_press 4 12 (9 : ℚ) "left"
          (load_trial [⟨4, 1/2⟩, ⟨6, 1/4⟩] (8 : ℚ)
            (next_trial { stage := .task, choice := "Hard", clicks := 12 })) :=
  C4_iti_ignores_input [⟨4, 1/2⟩, ⟨6, 1/4⟩] 4 12 5 8 9 (.press "right") "left"
    { stage := .task, choice := "Hard", clicks := 12 }
    rfl (by decide) (Or.inl rfl)

/-- C9: after the right calibration window completes the engine sits on the
result screen and the left countdown does not start automatically — any
sequence of events that contains no operator-advance signal leaves it
waiting, the operator-advance signal is what starts the left countdown, and
no transition from any other phase enters the left countdown. -/
theorem C9_manual_continue (L : List CalEvent)
    (h : CalEvent.operatorContinue ∉ L) :
    L.foldl cal_phase_step .awaitContinue = .awaitContinue
    ∧ cal_phase_step .awaitContinue .operatorContinue = .countdownLeft
    ∧ ∀ (p : CalPhase) (e : CalEvent), cal_phase_step p e = .countdownLeft →
        e = .operatorContinue ∨ p = .countdownLeft := by
  refine ⟨?_, rfl, ?_⟩
  · induction L with
    | nil => rfl
    | cons e L ih =>
      have he : e ≠ CalEvent.operatorContinue := fun hc => h (hc ▸ List.mem_cons_self e L)
      have hL : CalEvent.operatorContinue ∉ L := fun hc => h (List.mem_cons_of_mem e hc)
      have hstep : cal_phase_step .awaitContinue e = .awaitContinue := by
        cases e with
        | timerExpire => rfl
        | operatorContinue => exact absurd rfl he
        | key k ip => rfl
      rw [List.foldl_cons, hstep]
      exact ih hL
  · intro p e hpe
    cases p <;> cases e <;> simp_all [cal_phase_step]

/-- Witness for C9: expiries and key events while waiting do not start the
left countdown, and the operator signal does. -/
theorem C9_manual_continue_witness :
    ([CalEvent.timerExpire, CalEvent.key "Right" true,
      CalEvent.key "Right" false, CalEvent.timerExpire].foldl
        cal_phase_step .awaitContinue) = .awaitContinue
    ∧ cal_phase_step .awaitContinue .operatorContinue = .countdownLeft :=
  ⟨(C9_manual_continue [CalEvent.timerExpire, CalEvent.key "Right" true,
      CalEvent.key "Right" false, CalEvent.timerExpire] (by decide)).1,
   (C9_manual_continue [] (by decide)).2.1⟩

end EffortTask
